import Mathlib

/-!
Verification of the MIC Ledger & Wallet component of mobius-browser-shell.

Shallow embedding of `oaa-api/routes/wallet.py` and the reward calculation of
`oaa-api/routes/learning.py`.  Python floats are modelled as rationals (ℚ);
Python `round(x, n)` (banker's rounding) is modelled by `py_round` /
`py_round_to`; the in-memory ledger plus the simulated GII value become an
explicit `LedgerState` threaded through the operations; `raise ValueError`
becomes `Except.error`; the nondeterministic `uuid.uuid4()` and
`datetime.utcnow()` are passed in as explicit `fresh_id` / `created_at`
arguments.
-/

/-- Python `round(q)` : round half to even (banker's rounding), as `int`. -/
def py_round (q : ℚ) : ℤ :=
  let f := ⌊q⌋
  let frac := q - f
  if frac < 1/2 then f
  else if 1/2 < frac then f + 1
  else if Even f then f else f + 1

/-- Python `round(q, n)` : round to `n` decimal digits, half to even. -/
def py_round_to (n : ℕ) (q : ℚ) : ℚ :=
  (py_round (q * 10 ^ n) : ℚ) / 10 ^ n

namespace Wallet

/-- `MIC_CONFIG["gii_threshold_healthy"]` (wallet.py line 42). -/
def gii_threshold_healthy : ℚ := 90/100

/-- `MIC_CONFIG["gii_threshold_warning"]` (wallet.py line 43). -/
def gii_threshold_warning : ℚ := 75/100

/-- `MIC_CONFIG["gii_threshold_critical"]` (wallet.py line 44). -/
def gii_threshold_critical : ℚ := 60/100

/-- `MIC_CONFIG["gii_threshold_halt"]` (wallet.py line 45). -/
def gii_threshold_halt : ℚ := 50/100

/-- `MIC_CONFIG["source_rewards"]` (wallet.py lines 48-61). -/
def source_rewards : List (String × ℚ) :=
  [("oaa_tutor_question", 2),
   ("oaa_tutor_session_complete", 5),
   ("reflection_entry_created", 3),
   ("reflection_phase_complete", 5),
   ("reflection_entry_complete", 10),
   ("reflection_spark", 4),
   ("reflection_geist_mode", 7),
   ("reflection_epiphany", 12),
   ("shield_module_complete", 15),
   ("shield_checklist_item", 2),
   ("civic_radar_action_taken", 5),
   ("learning_module_completion", 0)]

/-- The `meta` dict of a ledger entry / earn request.  The ledger itself only
ever reads the keys `"mic_earned"` and `"integrity_score"`; all other keys are
opaque, so the model keeps just those two (absent key = `none`). -/
structure EntryMeta where
  mic_earned : Option ℚ
  integrity_score : Option ℚ
deriving DecidableEq

/-- A MIC ledger entry: `{ id, user_id, amount, reason, source, meta,
integrity_score, gii, created_at }` (wallet.py lines 171-181). -/
structure Entry where
  id : String
  user_id : String
  amount : ℚ
  reason : String
  source : String
  meta : EntryMeta
  integrity_score : ℚ
  gii : ℚ
  created_at : String
deriving DecidableEq

/-- The mutable module state of wallet.py: the append-only `MIC_LEDGER` list
and the (simulated) Global Integrity Index returned by `get_current_gii`. -/
structure LedgerState where
  ledger : List Entry
  gii : ℚ
deriving DecidableEq

/-- `get_current_gii()` (wallet.py lines 69-71). -/
def get_current_gii (s : LedgerState) : ℚ := s.gii

/-- The halt message of `check_circuit_breaker` (wallet.py line 82); the
Python f-string interpolates the numeric gii and threshold values, which the
model elides (no claim depends on the message text). -/
def halt_message : String := "MIC minting halted - GII below safe threshold"

/-- `check_circuit_breaker()` (wallet.py lines 74-84): returns
`(is_active, message)`; active iff the current GII is strictly below the halt
threshold. -/
def check_circuit_breaker (s : LedgerState) : Bool × String :=
  if get_current_gii s < gii_threshold_halt then (true, halt_message)
  else (false, "")

/-- `calculate_gii_multiplier(gii)` (wallet.py lines 87-96). -/
def calculate_gii_multiplier (gii : ℚ) : ℚ :=
  if gii_threshold_healthy ≤ gii then 1
  else if gii_threshold_warning ≤ gii then 8/10
  else if gii_threshold_critical ≤ gii then 1/2
  else 0

/-- `write_to_ledger(user_id, amount, reason, source, meta, integrity_score)`
(wallet.py lines 141-186).  `raise ValueError(halt_message)` becomes
`Except.error`; the state is returned unchanged in that case, mirroring that
the raise happens before any mutation.  On success the entry is appended and
returned. -/
def write_to_ledger (s : LedgerState) (user_id : String) (amount : ℚ)
    (reason source : String) (meta : Option EntryMeta)
    (integrity_score : ℚ) (fresh_id created_at : String) :
    Except String Entry × LedgerState :=
  let cb := check_circuit_breaker s
  if cb.1 ∧ 0 < amount then (Except.error cb.2, s)
  else
    let entry : Entry :=
      { id := fresh_id
        user_id := user_id
        amount := py_round_to 2 amount
        reason := reason
        source := source
        meta := meta.getD ⟨none, none⟩
        integrity_score := py_round_to 4 integrity_score
        gii := py_round_to 4 (get_current_gii s)
        created_at := created_at }
    (Except.ok entry, { s with ledger := s.ledger ++ [entry] })

/-- `get_user_balance(user_id)` (wallet.py lines 189-198): sum of `amount`
over the user's entries. -/
def get_user_balance (s : LedgerState) (user_id : String) : ℚ :=
  ((s.ledger.filter fun e => e.user_id = user_id).map Entry.amount).sum

/-- `get_user_total_earned(user_id)` (wallet.py lines 213-219): sum of the
user's strictly positive amounts. -/
def get_user_total_earned (s : LedgerState) (user_id : String) : ℚ :=
  ((s.ledger.filter fun e => e.user_id = user_id ∧ 0 < e.amount).map
    Entry.amount).sum

/-- `get_user_events(user_id, limit, offset)` (wallet.py lines 201-210):
filter the user's entries, sort by `created_at` descending, paginate.  The
`list.sort` call sorts a fresh filtered list, never the ledger itself. -/
def get_user_events (s : LedgerState) (user_id : String)
    (limit offset : ℕ) : List Entry :=
  let user_events := s.ledger.filter fun e => e.user_id = user_id
  let sorted := user_events.mergeSort fun a b => b.created_at ≤ a.created_at
  (sorted.drop offset).take limit

/-- The HTTP outcome of the `POST /mic/earn` endpoint `earn_mic`
(wallet.py lines 296-387): 400 when `source` is missing, 503 when the circuit
breaker is active, 201 with the created entry (plus ledger proof and new
balance) on success, 503 `Minting failed` when `write_to_ledger` raises. -/
inductive EarnResult where
  | sourceRequired
  | circuitBreakerActive (message : String) (gii : ℚ)
  | created (entry : Entry) (ledger_proof : String) (new_balance : ℚ)
  | mintingFailed (message : String)
deriving DecidableEq

/-- `earn_mic()` (wallet.py lines 296-387) after authentication: the resolved
`user_id`, the request's optional `source` string and `meta` dict are the
inputs; the uuid and timestamp consumed by `write_to_ledger` are passed
through. -/
def earn_mic (s : LedgerState) (user_id : String) (source : Option String)
    (meta : EntryMeta) (fresh_id created_at : String) :
    EarnResult × LedgerState :=
  match source with
  | none => (.sourceRequired, s)
  | some src =>
    let cb := check_circuit_breaker s
    if cb.1 then (.circuitBreakerActive cb.2 (get_current_gii s), s)
    else
      let gii := get_current_gii s
      let gii_multiplier := calculate_gii_multiplier gii
      let base_reward := (source_rewards.lookup src).getD 5
      let amount :=
        if src = "learning_module_completion" ∧ meta.mic_earned.isSome then
          meta.mic_earned.getD 0
        else
          py_round_to 2 (base_reward * gii_multiplier)
      let reason :=
        if src.startsWith "learning" ∨ src.startsWith "oaa" then "LEARN"
        else if src.startsWith "reflection" then "REFLECTION"
        else if src.startsWith "civic" ∨ src.startsWith "shield" then "CIVIC"
        else "EARN"
      let integrity_score := meta.integrity_score.getD 1
      match write_to_ledger s user_id amount reason src (some meta)
          integrity_score fresh_id created_at with
      | (Except.ok entry, s') =>
        (.created entry ("ledger:" ++ entry.id)
          (py_round_to 2 (get_user_balance s' user_id)), s')
      | (Except.error msg, s') => (.mintingFailed msg, s')

end Wallet

namespace Learning

/-- `MIC_CONFIG["minimum_accuracy"]` (learning.py line 247). -/
def minimum_accuracy : ℚ := 70/100

/-- `MIC_CONFIG["perfect_score_bonus"]` (learning.py line 248). -/
def perfect_score_bonus : ℚ := 10/100

/-- `sorted(MIC_CONFIG["streak_bonuses"].items(), reverse=True)`
(learning.py lines 249-253): the streak tiers, largest first, as iterated by
the streak-bonus loop. -/
def streak_bonuses : List (ℕ × ℚ) := [(30, 25/100), (7, 10/100), (3, 5/100)]

/-- `MIC_CONFIG["difficulty_multipliers"]` (learning.py lines 254-258). -/
def difficulty_multipliers : List (String × ℚ) :=
  [("beginner", 1), ("intermediate", 12/10), ("advanced", 3/2)]

/-- `MIC_CONFIG["gii_thresholds"]["healthy"]` (learning.py line 261). -/
def gii_healthy : ℚ := 90/100

/-- `MIC_CONFIG["gii_thresholds"]["warning"]` (learning.py line 262). -/
def gii_warning : ℚ := 75/100

/-- `MIC_CONFIG["gii_thresholds"]["critical"]` (learning.py line 263). -/
def gii_critical : ℚ := 60/100

/-- `MIC_CONFIG["gii_thresholds"]["halt"]` (learning.py line 264). -/
def gii_halt : ℚ := 50/100

/-- The perfect-score bonus computation of `calculate_mic_reward`
(learning.py lines 321-324): `base_reward * perfect_score_bonus` exactly when
`accuracy == 1.0`, else 0. -/
def perfect_bonus_of (base_reward : ℤ) (accuracy : ℚ) : ℚ :=
  if accuracy = 1 then (base_reward : ℚ) * perfect_score_bonus else 0

/-- The streak-bonus loop of `calculate_mic_reward` (learning.py lines
326-331): scan the tiers largest-first and take the first whose day count the
streak meets or exceeds (`break`), else 0. -/
def streak_bonus_of (base_reward : ℤ) (streak : ℕ) : ℚ :=
  match streak_bonuses.find? fun p => p.1 ≤ streak with
  | some p => (base_reward : ℚ) * p.2
  | none => 0

/-- The `breakdown` sub-dict of a successful `calculate_mic_reward` result
(learning.py lines 339-343): each component rounded with `round`. -/
structure RewardBreakdown where
  base : ℤ
  perfect_bonus : ℤ
  streak_bonus : ℤ
deriving DecidableEq

/-- The three dict shapes `calculate_mic_reward` can return (learning.py
lines 287-350): the circuit-breaker dict (`mic_earned: 0,
circuit_breaker_active: True`), the accuracy-too-low dict (`mic_earned: 0,
accuracy_too_low: True`), and the full reward dict. -/
inductive RewardResult where
  | circuitBreaker
  | accuracyTooLow
  | ok (mic_earned : ℤ) (breakdown : RewardBreakdown)
      (accuracy difficulty_mult gii_mult : ℚ) (streak : ℕ)
deriving DecidableEq

/-- The `mic_earned` field of the returned dict: 0 in both zero-reward
shapes. -/
def RewardResult.micEarned : RewardResult → ℤ
  | .circuitBreaker => 0
  | .accuracyTooLow => 0
  | .ok m _ _ _ _ _ => m

/-- Whether the returned dict carries `accuracy_too_low: True`. -/
def RewardResult.accuracyTooLowFlag : RewardResult → Bool
  | .accuracyTooLow => true
  | _ => false

/-- The `breakdown["perfect_bonus"]` field, when present. -/
def RewardResult.perfectBonusPart : RewardResult → Option ℤ
  | .ok _ b _ _ _ _ => some b.perfect_bonus
  | _ => none

/-- The `breakdown["streak_bonus"]` field, when present. -/
def RewardResult.streakBonusPart : RewardResult → Option ℤ
  | .ok _ b _ _ _ _ => some b.streak_bonus
  | _ => none

/-- `calculate_mic_reward(base_reward, accuracy, difficulty, streak, gii)`
(learning.py lines 269-350).  Note the code computes `base_mic` from the raw
`accuracy`, not `effective_accuracy`; the gii multiplier is the same inline
staircase as wallet.py's `calculate_gii_multiplier`. -/
def calculate_mic_reward (base_reward : ℤ) (accuracy : ℚ) (difficulty : String)
    (streak : ℕ) (gii : ℚ) : RewardResult :=
  if gii < gii_halt then .circuitBreaker
  else
    let effective_accuracy :=
      if minimum_accuracy ≤ accuracy then max accuracy minimum_accuracy else 0
    if effective_accuracy = 0 then .accuracyTooLow
    else
      let difficulty_mult := (difficulty_multipliers.lookup difficulty).getD 1
      let gii_mult :=
        if gii_healthy ≤ gii then 1
        else if gii_warning ≤ gii then 8/10
        else if gii_critical ≤ gii then 1/2
        else 0
      let base_mic := (base_reward : ℚ) * accuracy * difficulty_mult * gii_mult
      let perfect_bonus := perfect_bonus_of base_reward accuracy
      let streak_bonus := streak_bonus_of base_reward streak
      .ok (py_round (base_mic + perfect_bonus + streak_bonus))
        ⟨py_round base_mic, py_round perfect_bonus, py_round streak_bonus⟩
        accuracy difficulty_mult gii_mult streak

end Learning

open Wallet Learning

/-! ## Helper lemmas -/

/-- `check_circuit_breaker` while halted: active with the halt message. -/
lemma check_circuit_breaker_of_lt {s : LedgerState}
    (h : s.gii < gii_threshold_halt) :
    check_circuit_breaker s = (true, halt_message) := by
  simp [check_circuit_breaker, get_current_gii, h]

/-- `check_circuit_breaker` while healthy enough: inactive. -/
lemma check_circuit_breaker_of_le {s : LedgerState}
    (h : gii_threshold_halt ≤ s.gii) :
    check_circuit_breaker s = (false, "") := by
  simp [check_circuit_breaker, get_current_gii, not_lt.mpr h]

/-- Whatever its arguments, `write_to_ledger` only ever appends to the
ledger. -/
lemma write_to_ledger_extends (s : LedgerState) (user_id : String)
    (amount : ℚ) (reason source : String) (meta : Option EntryMeta)
    (integrity_score : ℚ) (fresh_id created_at : String) :
    ∃ new : List Entry,
      ((write_to_ledger s user_id amount reason source meta integrity_score
          fresh_id created_at).2).ledger = s.ledger ++ new := by
  rw [write_to_ledger]
  by_cases hc : (check_circuit_breaker s).1 = true ∧ 0 < amount
  · exact ⟨[], by rw [if_pos hc]; simp⟩
  · exact ⟨_, by rw [if_neg hc]⟩

/-! ## Claims -/

/-- Claim C1: for every user `u`, `get_user_balance` equals the sum of
`amount` over all ledger entries whose `user_id` equals `u`; with no entries
the result is 0 (not an error); and a successful `write_to_ledger` changes
`u`'s balance by exactly the stored amount of the appended entry and no other
user's balance. -/
theorem claim_C1_balance_derivation (s : LedgerState) (u : String) :
    get_user_balance s u
        = ((s.ledger.filter fun e => e.user_id = u).map Entry.amount).sum
    ∧ (s.ledger.filter (fun e => e.user_id = u) = [] →
        get_user_balance s u = 0)
    ∧ ∀ (amount : ℚ) (reason source : String) (meta : Option EntryMeta)
        (integrity_score : ℚ) (fresh_id created_at : String)
        (e : Entry) (s' : LedgerState),
        write_to_ledger s u amount reason source meta integrity_score
            fresh_id created_at = (Except.ok e, s') →
        get_user_balance s' u = get_user_balance s u + e.amount
        ∧ ∀ v : String, v ≠ u → get_user_balance s' v = get_user_balance s v := by
  refine ⟨rfl, ?_, ?_⟩
  · intro h
    simp [get_user_balance, h]
  · intro amount reason source meta integrity_score fresh_id created_at e s' h
    rw [write_to_ledger] at h
    by_cases hc : (check_circuit_breaker s).1 = true ∧ 0 < amount
    · rw [if_pos hc] at h
      simp at h
    · rw [if_neg hc] at h
      injection h with h1 h2
      injection h1 with h1
      subst h1
      subst h2
      constructor
      · simp [get_user_balance, List.filter_append]
      · intro v hv
        simp [get_user_balance, List.filter_append, Ne.symm hv]

/-- Claim C1 witness: appending one +10 entry for alice to the empty ledger
raises alice's balance from 0 by the stored amount. -/
theorem claim_C1_balance_derivation_witness :
    get_user_balance
        ⟨[⟨"id1", "alice", 10, "EARN", "test", ⟨none, none⟩, 1, 19/20, "t1"⟩],
          19/20⟩ "alice"
      = get_user_balance ⟨[], 19/20⟩ "alice"
        + Entry.amount
            ⟨"id1", "alice", 10, "EARN", "test", ⟨none, none⟩, 1, 19/20, "t1"⟩ :=
  ((claim_C1_balance_derivation ⟨[], 19/20⟩ "alice").2.2 10 "EARN" "test" none
    1 "id1" "t1" _ _ (by
      rw [write_to_ledger]
      norm_num [check_circuit_breaker, get_current_gii, gii_threshold_halt,
        py_round_to, py_round, Int.fract])).1

/-- Claim C2: with the GII strictly below the halt threshold,
`write_to_ledger` with a positive amount fails with the circuit-breaker error
and leaves the ledger unchanged, while a non-positive amount succeeds and
appends exactly one entry. -/
theorem claim_C2_halt_gating (s : LedgerState) (u : String) (amount : ℚ)
    (reason source : String) (meta : Option EntryMeta) (integrity_score : ℚ)
    (fresh_id created_at : String) (h : s.gii < gii_threshold_halt) :
    (0 < amount →
      write_to_ledger s u amount reason source meta integrity_score fresh_id
          created_at = (Except.error halt_message, s))
    ∧ (amount ≤ 0 →
      ∃ e : Entry,
        write_to_ledger s u amount reason source meta integrity_score fresh_id
            created_at = (Except.ok e, ⟨s.ledger ++ [e], s.gii⟩)) := by
  have hcb := check_circuit_breaker_of_lt h
  constructor
  · intro ha
    rw [write_to_ledger, hcb]
    rw [if_pos ⟨rfl, ha⟩]
  · intro ha
    rw [write_to_ledger]
    rw [if_neg (by rw [hcb]; simp; linarith)]
    exact ⟨_, rfl⟩

/-- Claim C2 witness: at `gii = 0.40 < 0.50` a `+10` write fails with the
halt error and the state (hence the ledger) is unchanged. -/
theorem claim_C2_halt_gating_witness :
    write_to_ledger ⟨[], 2/5⟩ "u" 10 "EARN" "x" none 1 "i" "t"
      = (Except.error halt_message, ⟨[], 2/5⟩) :=
  (claim_C2_halt_gating ⟨[], 2/5⟩ "u" 10 "EARN" "x" none 1 "i" "t"
    (by norm_num [gii_threshold_halt])).1 (by norm_num)

/-- Claim C3: the ledger is append-only.  `write_to_ledger` and the earn
endpoint only ever extend the ledger, so every prior entry is still present,
with all fields unchanged, at its old position (the old-length prefix of the
new ledger is exactly the old ledger); the read operations
(`get_user_balance`, `get_user_events`, `get_user_total_earned`) are pure
functions of the state and return no new state at all. -/
theorem claim_C3_append_only (s : LedgerState) (u : String) (amount : ℚ)
    (reason source : String) (meta : Option EntryMeta) (integrity_score : ℚ)
    (fresh_id created_at : String) (esource : Option String)
    (emeta : EntryMeta) :
    (∃ new : List Entry,
      ((write_to_ledger s u amount reason source meta integrity_score fresh_id
          created_at).2).ledger = s.ledger ++ new)
    ∧ ((write_to_ledger s u amount reason source meta integrity_score fresh_id
          created_at).2).ledger.take s.ledger.length = s.ledger
    ∧ (∃ new : List Entry,
      ((earn_mic s u esource emeta fresh_id created_at).2).ledger
        = s.ledger ++ new)
    ∧ ((earn_mic s u esource emeta fresh_id created_at).2).ledger.take
        s.ledger.length = s.ledger := by
  obtain ⟨new, hw⟩ := write_to_ledger_extends s u amount reason source meta
    integrity_score fresh_id created_at
  have hearn : ∃ new : List Entry,
      ((earn_mic s u esource emeta fresh_id created_at).2).ledger
        = s.ledger ++ new := by
    cases esource with
    | none => exact ⟨[], by rw [earn_mic]; simp⟩
    | some src =>
      simp only [earn_mic]
      by_cases hcb : (check_circuit_breaker s).1 = true
      · exact ⟨[], by rw [if_pos hcb]; simp⟩
      · rw [if_neg hcb]
        obtain ⟨newe, hwe⟩ := write_to_ledger_extends s u
          (if src = "learning_module_completion" ∧ emeta.mic_earned.isSome
            then emeta.mic_earned.getD 0
            else py_round_to 2
              (((source_rewards.lookup src).getD 5)
                * calculate_gii_multiplier (get_current_gii s)))
          (if src.startsWith "learning" ∨ src.startsWith "oaa" then "LEARN"
            else if src.startsWith "reflection" then "REFLECTION"
            else if src.startsWith "civic" ∨ src.startsWith "shield" then
              "CIVIC"
            else "EARN")
          src (some emeta) (emeta.integrity_score.getD 1) fresh_id created_at
        refine ⟨newe, ?_⟩
        rcases hr : write_to_ledger s u
          (if src = "learning_module_completion" ∧ emeta.mic_earned.isSome
            then emeta.mic_earned.getD 0
            else py_round_to 2
              (((source_rewards.lookup src).getD 5)
                * calculate_gii_multiplier (get_current_gii s)))
          (if src.startsWith "learning" ∨ src.startsWith "oaa" then "LEARN"
            else if src.startsWith "reflection" then "REFLECTION"
            else if src.startsWith "civic" ∨ src.startsWith "shield" then
              "CIVIC"
            else "EARN")
          src (some emeta) (emeta.integrity_score.getD 1) fresh_id created_at
          with ⟨r, s2⟩
        rw [hr] at hwe
        cases r <;> simpa using hwe
  obtain ⟨newE, hE⟩ := hearn
  exact ⟨⟨new, hw⟩, by rw [hw]; simp,
    ⟨newE, hE⟩, by rw [hE]; simp⟩

/-- Claim C4 counterexample: at `gii = 0.60` (exactly the critical threshold)
the code returns multiplier `0.5`, not the `0` the claim's "zero at or below
the critical threshold" requires. -/
theorem claim_C4_counterexample :
    calculate_gii_multiplier (60/100) = 1/2
    ∧ calculate_gii_multiplier (60/100) ≠ 0 := by
  constructor <;>
    norm_num [calculate_gii_multiplier, gii_threshold_healthy,
      gii_threshold_warning, gii_threshold_critical]

/-- Claim C4 (amended): the gii multiplier is the step function with
lower-inclusive breakpoints: `1.0` at or above healthy (0.90), `0.8` on
`[warning, healthy)`, `0.5` on `[critical, warning)`, and `0` strictly below
critical (0.60); in particular `0.91 → 1.0`, `0.80 → 0.8`, `0.65 → 0.5`, and
`0.55 → 0`. -/
theorem claim_C4_staircase_amended (g : ℚ) :
    (gii_threshold_healthy ≤ g → calculate_gii_multiplier g = 1)
    ∧ (gii_threshold_warning ≤ g → g < gii_threshold_healthy →
        calculate_gii_multiplier g = 8/10)
    ∧ (gii_threshold_critical ≤ g → g < gii_threshold_warning →
        calculate_gii_multiplier g = 1/2)
    ∧ (g < gii_threshold_critical → calculate_gii_multiplier g = 0)
    ∧ calculate_gii_multiplier (91/100) = 1
    ∧ calculate_gii_multiplier (80/100) = 8/10
    ∧ calculate_gii_multiplier (65/100) = 1/2
    ∧ calculate_gii_multiplier (55/100) = 0 := by
  refine ⟨?_, ?_, ?_, ?_, ?_, ?_, ?_, ?_⟩
  · intro h
    rw [calculate_gii_multiplier, if_pos h]
  · intro h h'
    rw [calculate_gii_multiplier, if_neg (not_le.mpr h'), if_pos h]
  · intro h h'
    rw [calculate_gii_multiplier,
      if_neg (not_le.mpr (h'.trans_le (by norm_num
        [gii_threshold_warning, gii_threshold_healthy]))),
      if_neg (not_le.mpr h'), if_pos h]
  · intro h
    rw [calculate_gii_multiplier,
      if_neg (not_le.mpr (h.trans_le (by norm_num
        [gii_threshold_critical, gii_threshold_healthy]))),
      if_neg (not_le.mpr (h.trans_le (by norm_num
        [gii_threshold_critical, gii_threshold_warning]))),
      if_neg (not_le.mpr h)]
  all_goals
    norm_num [calculate_gii_multiplier, gii_threshold_healthy,
      gii_threshold_warning, gii_threshold_critical]

/-- Claim C4 (amended) witness: at `gii = 0.91` the multiplier is `1`. -/
theorem claim_C4_staircase_amended_witness :
    calculate_gii_multiplier (91/100) = 1 :=
  (claim_C4_staircase_amended (91/100)).1
    (by norm_num [gii_threshold_healthy])

/-- Claim C5: the end-to-end scenario: `base_reward=100, accuracy=1.0,
difficulty="advanced", streak=7, gii=0.95` gives base 150
(100 × 1.0 × 1.5 × 1.0), perfect bonus 10, streak bonus 10, and
`mic_earned = 170`. -/
theorem claim_C5_end_to_end :
    calculate_mic_reward 100 1 "advanced" 7 (95/100)
      = .ok 170 ⟨150, 10, 10⟩ 1 (3/2) 1 7 := by
  have hl : (difficulty_multipliers.lookup "advanced").getD 1 = 3/2 := by
    simp [difficulty_multipliers, List.lookup]
  have hs : streak_bonus_of 100 7 = 10 := by
    simp [streak_bonus_of, streak_bonuses, List.find?]
    norm_num
  have hp : perfect_bonus_of 100 1 = 10 := by
    norm_num [perfect_bonus_of, perfect_score_bonus]
  rw [calculate_mic_reward]
  rw [hl, hs, hp]
  norm_num [gii_halt, minimum_accuracy, gii_healthy, py_round, Int.fract]

/-- Claim C6: the 0.70 minimum-accuracy threshold is inclusive: with
accuracy strictly below 0.70 and the GII not below halt the result is
`mic_earned = 0` with `accuracy_too_low` set, while accuracy exactly 0.70
(base 100, beginner, streak 0, gii 0.95) earns a non-zero 70 with no
`accuracy_too_low` flag. -/
theorem claim_C6_accuracy_threshold (base_reward : ℤ) (accuracy : ℚ)
    (difficulty : String) (streak : ℕ) (gii : ℚ) :
    (¬ gii < gii_halt → accuracy < minimum_accuracy →
      calculate_mic_reward base_reward accuracy difficulty streak gii
          = .accuracyTooLow
      ∧ (calculate_mic_reward base_reward accuracy difficulty streak
          gii).micEarned = 0
      ∧ (calculate_mic_reward base_reward accuracy difficulty streak
          gii).accuracyTooLowFlag = true)
    ∧ calculate_mic_reward 100 (70/100) "beginner" 0 (95/100)
        = .ok 70 ⟨70, 0, 0⟩ (70/100) 1 1 0
    ∧ (calculate_mic_reward 100 (70/100) "beginner" 0 (95/100)).micEarned ≠ 0
    ∧ (calculate_mic_reward 100 (70/100) "beginner" 0
        (95/100)).accuracyTooLowFlag = false := by
  have heval : calculate_mic_reward 100 (70/100) "beginner" 0 (95/100)
      = .ok 70 ⟨70, 0, 0⟩ (70/100) 1 1 0 := by
    have hl : (difficulty_multipliers.lookup "beginner").getD 1 = 1 := by
      simp [difficulty_multipliers, List.lookup]
    have hs : streak_bonus_of 100 0 = 0 := by
      simp [streak_bonus_of, streak_bonuses, List.find?]
    have hp : perfect_bonus_of 100 (70/100) = 0 := by
      norm_num [perfect_bonus_of]
    rw [calculate_mic_reward]
    rw [hl, hs, hp]
    norm_num [gii_halt, minimum_accuracy, gii_healthy, py_round, Int.fract]
  refine ⟨?_, heval, ?_, ?_⟩
  · intro hg ha
    have hcalc : calculate_mic_reward base_reward accuracy difficulty streak
        gii = .accuracyTooLow := by
      rw [calculate_mic_reward, if_neg hg, if_neg (not_le.mpr ha), if_pos rfl]
    exact ⟨hcalc, by rw [hcalc]; rfl, by rw [hcalc]; rfl⟩
  · rw [heval]
    decide
  · rw [heval]
    rfl

/-- Claim C6 witness: accuracy 0.69 (below the threshold) at healthy gii
yields the zero-reward `accuracy_too_low` outcome. -/
theorem claim_C6_accuracy_threshold_witness :
    calculate_mic_reward 100 (69/100) "beginner" 0 (95/100)
        = .accuracyTooLow
    ∧ (calculate_mic_reward 100 (69/100) "beginner" 0 (95/100)).micEarned = 0
    ∧ (calculate_mic_reward 100 (69/100) "beginner" 0
        (95/100)).accuracyTooLowFlag = true :=
  (claim_C6_accuracy_threshold 100 (69/100) "beginner" 0 (95/100)).1
    (by norm_num [gii_halt]) (by norm_num [minimum_accuracy])

/-- Claim C7: the perfect-score bonus is 10% of `base_reward` exactly when
`accuracy == 1.0`, and 0 for any accuracy below 1.0; in the full calculation,
accuracy 0.999 reports a perfect bonus of 0 and accuracy 1.0 reports 10 (for
base 100). -/
theorem claim_C7_perfect_bonus (base_reward : ℤ) (accuracy : ℚ) :
    (accuracy = 1 →
      perfect_bonus_of base_reward accuracy = (base_reward : ℚ) * (10/100))
    ∧ (accuracy < 1 → perfect_bonus_of base_reward accuracy = 0)
    ∧ (calculate_mic_reward 100 (999/1000) "beginner" 0
        (95/100)).perfectBonusPart = some 0
    ∧ (calculate_mic_reward 100 1 "beginner" 0
        (95/100)).perfectBonusPart = some 10 := by
  have hl : (difficulty_multipliers.lookup "beginner").getD 1 = 1 := by
    simp [difficulty_multipliers, List.lookup]
  have hs : streak_bonus_of 100 0 = 0 := by
    simp [streak_bonus_of, streak_bonuses, List.find?]
  refine ⟨?_, ?_, ?_, ?_⟩
  · intro h
    rw [perfect_bonus_of, if_pos h, perfect_score_bonus]
  · intro h
    rw [perfect_bonus_of, if_neg (ne_of_lt h)]
  · have heval : calculate_mic_reward 100 (999/1000) "beginner" 0 (95/100)
        = .ok 100 ⟨100, 0, 0⟩ (999/1000) 1 1 0 := by
      have hp : perfect_bonus_of 100 (999/1000) = 0 := by
        norm_num [perfect_bonus_of]
      rw [calculate_mic_reward]
      rw [hl, hs, hp]
      norm_num [gii_halt, minimum_accuracy, gii_healthy, py_round, Int.fract]
    rw [heval]
    rfl
  · have heval : calculate_mic_reward 100 1 "beginner" 0 (95/100)
        = .ok 110 ⟨100, 10, 0⟩ 1 1 1 0 := by
      have hp : perfect_bonus_of 100 1 = 10 := by
        norm_num [perfect_bonus_of, perfect_score_bonus]
      rw [calculate_mic_reward]
      rw [hl, hs, hp]
      norm_num [gii_halt, minimum_accuracy, gii_healthy, py_round, Int.fract]
    rw [heval]
    rfl

/-- Claim C7 witness: at accuracy exactly 1.0 the bonus is
`100 × 0.10 = 10`. -/
theorem claim_C7_perfect_bonus_witness :
    perfect_bonus_of 100 1 = (100 : ℚ) * (10/100) :=
  (claim_C7_perfect_bonus 100 1).1 rfl

/-- Claim C8: the streak bonus is `base_reward` times the percentage of the
single largest tier the streak meets (3→5%, 7→10%, 30→25%), 0 below every
tier, never the sum of tiers: streak 10 (meeting both the 3- and 7-day tiers)
gives exactly `base_reward × 0.10`, and 10 in the full calculation for base
100. -/
theorem claim_C8_streak_bonus (base_reward : ℤ) (streak : ℕ) :
    (streak < 3 → streak_bonus_of base_reward streak = 0)
    ∧ (3 ≤ streak → streak < 7 →
        streak_bonus_of base_reward streak = (base_reward : ℚ) * (5/100))
    ∧ (7 ≤ streak → streak < 30 →
        streak_bonus_of base_reward streak = (base_reward : ℚ) * (10/100))
    ∧ (30 ≤ streak →
        streak_bonus_of base_reward streak = (base_reward : ℚ) * (25/100))
    ∧ streak_bonus_of base_reward 10 = (base_reward : ℚ) * (10/100)
    ∧ (calculate_mic_reward 100 1 "beginner" 10 (95/100)).streakBonusPart
        = some 10 := by
  refine ⟨?_, ?_, ?_, ?_, ?_, ?_⟩
  · intro h
    simp [streak_bonus_of, streak_bonuses, List.find?,
      show ¬(30 ≤ streak) from by omega,
      show ¬(7 ≤ streak) from by omega,
      show ¬(3 ≤ streak) from by omega]
  · intro h h'
    simp [streak_bonus_of, streak_bonuses, List.find?,
      show ¬(30 ≤ streak) from by omega,
      show ¬(7 ≤ streak) from by omega, h]
  · intro h h'
    simp [streak_bonus_of, streak_bonuses, List.find?,
      show ¬(30 ≤ streak) from by omega, h]
  · intro h
    simp [streak_bonus_of, streak_bonuses, List.find?, h]
  · simp [streak_bonus_of, streak_bonuses, List.find?]
  · have heval : calculate_mic_reward 100 1 "beginner" 10 (95/100)
        = .ok 120 ⟨100, 10, 10⟩ 1 1 1 10 := by
      have hl : (difficulty_multipliers.lookup "beginner").getD 1 = 1 := by
        simp [difficulty_multipliers, List.lookup]
      have hs : streak_bonus_of 100 10 = 10 := by
        simp [streak_bonus_of, streak_bonuses, List.find?]
        norm_num
      have hp : perfect_bonus_of 100 1 = 10 := by
        norm_num [perfect_bonus_of, perfect_score_bonus]
      rw [calculate_mic_reward]
      rw [hl, hs, hp]
      norm_num [gii_halt, minimum_accuracy, gii_healthy, py_round, Int.fract]
    rw [heval]
    rfl

/-- Claim C8 witness: streak 4 meets only the 3-day tier, bonus
`100 × 0.05`. -/
theorem claim_C8_streak_bonus_witness :
    streak_bonus_of 100 4 = (100 : ℚ) * (5/100) :=
  (claim_C8_streak_bonus 100 4).2.1 (by omega) (by omega)

/-- Claim C9 counterexample: at `gii` exactly equal to the halt threshold
(0.50) a positive mint of 10 is NOT blocked: `write_to_ledger` succeeds and
appends the entry, because the code's circuit breaker uses a strict `<`
comparison. -/
theorem claim_C9_counterexample :
    write_to_ledger ⟨[], 1/2⟩ "u" 10 "EARN" "x" none 1 "i" "t"
      = (Except.ok ⟨"i", "u", 10, "EARN", "x", ⟨none, none⟩, 1, 1/2, "t"⟩,
          ⟨[⟨"i", "u", 10, "EARN", "x", ⟨none, none⟩, 1, 1/2, "t"⟩], 1/2⟩)
    ∧ ((write_to_ledger ⟨[], 1/2⟩ "u" 10 "EARN" "x" none 1 "i" "t").2).ledger.length
        = 1 := by
  constructor <;>
  · rw [write_to_ledger]
    norm_num [check_circuit_breaker, get_current_gii, gii_threshold_halt,
      py_round_to, py_round, Int.fract]

/-- Claim C9 (amended): a positive mint is blocked with the circuit-breaker
error (and nothing is written) exactly when the GII is STRICTLY below the
halt threshold; at or above the threshold — including exactly 0.50 — the
write succeeds and appends one entry. -/
theorem claim_C9_halt_boundary_amended (s : LedgerState) (u : String)
    (amount : ℚ) (reason source : String) (meta : Option EntryMeta)
    (integrity_score : ℚ) (fresh_id created_at : String)
    (h : 0 < amount) :
    (s.gii < gii_threshold_halt →
      write_to_ledger s u amount reason source meta integrity_score fresh_id
          created_at = (Except.error halt_message, s))
    ∧ (gii_threshold_halt ≤ s.gii →
      ∃ e : Entry,
        write_to_ledger s u amount reason source meta integrity_score fresh_id
            created_at = (Except.ok e, ⟨s.ledger ++ [e], s.gii⟩)) := by
  constructor
  · intro hg
    rw [write_to_ledger, check_circuit_breaker_of_lt hg]
    rw [if_pos ⟨rfl, h⟩]
  · intro hg
    rw [write_to_ledger, check_circuit_breaker_of_le hg]
    rw [if_neg (by simp)]
    exact ⟨_, rfl⟩

/-- Claim C9 (amended) witness: at `gii = 0.45 < 0.50` a positive mint of 7
fails with the halt error and the state is unchanged. -/
theorem claim_C9_halt_boundary_amended_witness :
    write_to_ledger ⟨[], 45/100⟩ "alice" 7 "EARN" "x" none 1 "i" "t"
      = (Except.error halt_message, ⟨[], 45/100⟩) :=
  (claim_C9_halt_boundary_amended ⟨[], 45/100⟩ "alice" 7 "EARN" "x" none 1
    "i" "t" (by norm_num)).1 (by norm_num [gii_threshold_halt])

/-- Claim C10: while the GII is strictly below the halt threshold, the earn
endpoint answers every request with the 503 circuit-breaker response before
computing any amount, and appends nothing — even requests whose amount would
have been non-positive (e.g. a negative `mic_earned` override), so
corrections cannot be submitted through this endpoint during a halt. -/
theorem claim_C10_earn_halted (s : LedgerState) (u src fresh_id
    created_at : String) (meta : EntryMeta)
    (h : s.gii < gii_threshold_halt) :
    earn_mic s u (some src) meta fresh_id created_at
      = (.circuitBreakerActive halt_message s.gii, s) := by
  simp only [earn_mic]
  rw [check_circuit_breaker_of_lt h]
  simp [get_current_gii]

/-- Claim C10 witness: at `gii = 0.40` a `learning_module_completion` request
with a negative `mic_earned` override of −10 still gets the 503
circuit-breaker response and no ledger entry. -/
theorem claim_C10_earn_halted_witness :
    earn_mic ⟨[], 2/5⟩ "u" (some "learning_module_completion")
        ⟨some (-10), none⟩ "i" "t"
      = (.circuitBreakerActive halt_message (2/5), ⟨[], 2/5⟩) :=
  claim_C10_earn_halted ⟨[], 2/5⟩ "u" "learning_module_completion" "i" "t"
    ⟨some (-10), none⟩ (by norm_num [gii_threshold_halt])
